import Mathlib

/-!
Verification of the scene-memory subsystem of the LUMEX-AI repository.

The embedding below follows `src/lib/genai-live-client.ts` (Scene Store,
Context Serializer and `send`), `src/components/control-tray/ControlTray.tsx`
(Navigation Controller) and `src/types.ts` (data model).  JavaScript numbers
are modelled as `Int` (all the positions the claims are about are integral),
`Date.now()` as an explicit `now : Nat` argument, optional fields as
`Option`, and JavaScript truthiness of strings (`""` is falsy) explicitly
where the source relies on it.
-/

namespace Lumex

/-- Type `Position` from `types.ts`: a 2D coordinate `[x, y]`. -/
abbrev Position : Type := Int × Int

/-- Type `SceneObject` from `types.ts`. -/
structure SceneObject where
  name : String
  position : Position
  description : Option String
  timestamp : Option Nat
  deriving DecidableEq, Repr

/-- Type `SceneSnapshot` from `types.ts`. -/
structure SceneSnapshot where
  timestamp : Nat
  user : Position
  objects : List SceneObject
  action : Option String
  deriving DecidableEq, Repr

/-- Type `SceneMemory` from `types.ts`. -/
structure SceneMemory where
  user : Position
  objects : List SceneObject
  goal : Option Position
  goalDescription : Option String
  history : List SceneSnapshot
  deriving DecidableEq, Repr

/-- The initial `_sceneMemory` field value of `GenAILiveClient`
(`genai-live-client.ts` lines 103-107): user at the origin, no objects,
no history (and the optional goal fields absent). -/
def initialSceneMemory : SceneMemory :=
  { user := ((0 : Int), (0 : Int))
    objects := []
    goal := none
    goalDescription := none
    history := [] }

/-- Method `updateUserPosition` (`genai-live-client.ts` lines 315-329): pushes the
pre-call `(timestamp, user, objects, action)` snapshot onto `history`
(`[...user]` / `[...objects]` are value copies), then sets `user` to the new
position.  `Date.now()` is the explicit `now` argument. -/
def updateUserPosition (m : SceneMemory) (newPosition : Position)
    (action : Option String) (now : Nat) : SceneMemory :=
  { m with
    history := m.history ++
      [{ timestamp := now
         user := m.user
         objects := m.objects
         action := action }]
    user := newPosition }

/-- Method `updateSceneObject` (`genai-live-client.ts` lines 336-357): looks up the
first object with the same `name` (`findIndex`); if found, overwrites that
slot with the argument object carrying a fresh timestamp, otherwise pushes
the argument object (fresh timestamp) at the end. -/
def updateSceneObject (m : SceneMemory) (object : SceneObject) (now : Nat) :
    SceneMemory :=
  match m.objects.findIdx? (fun obj => obj.name == object.name) with
  | some existingIndex =>
      { m with objects :=
          m.objects.set existingIndex { object with timestamp := some now } }
  | none =>
      { m with objects :=
          m.objects ++ [{ object with timestamp := some now }] }

/-- Method `setNavigationGoal` (`genai-live-client.ts` lines 364-373): a string
argument sets `goalDescription`, a position argument sets `goal`; neither
branch clears the other field. -/
def setNavigationGoal (m : SceneMemory) (goal : Position ⊕ String) :
    SceneMemory :=
  match goal with
  | Sum.inr s => { m with goalDescription := some s }
  | Sum.inl p => { m with goal := some p }

/-- Method `resetScene` (`genai-live-client.ts` lines 378-387): replaces the whole
scene memory with the literal `{user: [0,0], objects: [], history: []}`
(goal fields absent). -/
def resetScene (_m : SceneMemory) : SceneMemory :=
  { user := ((0 : Int), (0 : Int))
    objects := []
    goal := none
    goalDescription := none
    history := [] }

/-- JavaScript truthiness of an optional string field: the field is truthy
iff it is present and non-empty (`""` is falsy). -/
def strTruthy : Option String → Bool
  | some s => !s.isEmpty
  | none => false

/-- One line of the `Detected Objects:` section, as produced by the
`objects.forEach` body of `getSceneContext` (`genai-live-client.ts` lines
401-409).  The description suffix is appended only when `obj.description`
is truthy (present and non-empty). -/
def renderObject (user : Position) (obj : SceneObject) : String :=
  let relativeX : Int := obj.position.1 - user.1
  let relativeY : Int := obj.position.2 - user.2
  "- " ++ obj.name ++ " at [" ++ toString obj.position.1 ++ ", " ++
    toString obj.position.2 ++ "] (relative: [" ++ toString relativeX ++
    ", " ++ toString relativeY ++ "])" ++
    (match obj.description with
     | some d => if d.isEmpty then "" else " - " ++ d
     | none => "") ++ "\n"

/-- Method `getSceneContext` (`genai-live-client.ts` lines 393-428).  The
`forEach` loop appending each object line to `context` is modelled as the
concatenation of the rendered lines.  The goal section guard
`if (goal || goalDescription)` uses JavaScript truthiness: an array-valued
`goal` is always truthy, a `goalDescription` only when non-empty; the same
truthiness governs the inner `if (goalDescription)` / `if (goal)`. -/
def getSceneContext (m : SceneMemory) : String :=
  let context := "\n--- SCENE MEMORY ---\n"
  let context := context ++ "User Position: [" ++ toString m.user.1 ++
    ", " ++ toString m.user.2 ++ "]\n"
  let context := context ++
    (if m.objects.length > 0 then
      "\nDetected Objects:\n" ++
        String.join (m.objects.map (renderObject m.user))
    else
      "No objects detected yet.\n")
  let context := context ++
    (if m.goal.isSome || strTruthy m.goalDescription then
      "\nNavigation Goal: " ++
        (match m.goalDescription with
         | some d => if d.isEmpty then "" else d
         | none => "") ++
        (match m.goal with
         | some g => " [" ++ toString g.1 ++ ", " ++ toString g.2 ++ "]"
         | none => "") ++ "\n"
    else "")
  context ++ "--- END SCENE MEMORY ---\n"

/-- A content `Part` as used by `send`: either an object carrying a `text`
key (whose value may be the empty string) or a non-text part (e.g. inline
data). -/
inductive Part where
  | text (s : String)
  | inlineData (data : String)
  deriving DecidableEq, Repr

/-- Test `text in part`: whether the part carries a `text` key at all. -/
def hasTextField : Part → Bool
  | Part.text _ => true
  | Part.inlineData _ => false

/-- The body of the `partsToSend.map` in `send` (`genai-live-client.ts`
lines 453-458): the guard testing that the `text` key exists and that its
value is truthy prepends the scene
context to the text of the part; a part without a `text` key, or whose text is
the empty string (falsy), is returned unchanged. -/
def prependSceneContext (sceneContext : String) : Part → Part
  | Part.text s => if s.isEmpty then Part.text s
                   else Part.text (sceneContext ++ s)
  | p => p

/-- The parts actually transmitted by `send` (`genai-live-client.ts` lines
446-464): when `includeSceneContext` is set, the scene context is prepended
to every truthy text part, and if no part carries a `text` key at all the
scene context is `unshift`ed as an extra leading text part. -/
def buildPartsToSend (m : SceneMemory) (parts : List Part)
    (includeSceneContext : Bool) : List Part :=
  if includeSceneContext then
    let sceneContext := getSceneContext m
    let mapped := parts.map (prependSceneContext sceneContext)
    if mapped.any hasTextField then mapped
    else Part.text sceneContext :: mapped
  else parts

/-- The client state `send` reads: whether `this.session` is non-null, and
the scene memory. -/
structure ClientState where
  hasSession : Bool
  sceneMemory : SceneMemory
  deriving DecidableEq, Repr

/-- Observable outcome of one `send` call: either the early-return branch
that only logs `"[SEND] No session exists, cannot send!"`, or a successful
`sendClientContent` with the transmitted turns. -/
inductive SendOutcome where
  | errorNoSession
  | sent (turns : List Part) (turnComplete : Bool)
  deriving DecidableEq, Repr

/-- Method `send` (`genai-live-client.ts` lines 434-475): with no session it logs
and returns without transmitting and without touching any state; otherwise
it transmits `buildPartsToSend`.  The returned `ClientState` is the state
after the call. -/
def send (c : ClientState) (parts : List Part) (turnComplete : Bool)
    (includeSceneContext : Bool) : ClientState × SendOutcome :=
  if !c.hasSession then
    (c, SendOutcome.errorNoSession)
  else
    (c, SendOutcome.sent
      (buildPartsToSend c.sceneMemory parts includeSceneContext)
      turnComplete)

/-- Type `NavigationStep` from `types.ts`. -/
structure NavigationStep where
  instruction : String
  expectedUserPosition : Option Position
  isComplete : Bool
  nextStep : Option String
  deriving DecidableEq, Repr

/-- Type `NavigationState` from `types.ts`, the `useState` record of
`ControlTray.tsx` (lines 60-69). -/
structure NavigationState where
  active : Bool
  currentStep : Nat
  steps : List NavigationStep
  scene : SceneMemory
  awaitingUserConfirmation : Option Bool
  deriving DecidableEq, Repr

/-- The state the `ControlTray` navigation handlers touch: the client
(owning the scene store) and the `navigationState` of the component. -/
structure ControlTrayState where
  client : ClientState
  nav : NavigationState
  deriving DecidableEq, Repr

/-- Handler `completeNavigation` (`ControlTray.tsx` lines 275-284): clears only the
transient navigation state (`active`, `currentStep`, `steps`) and never
calls into the client, so the scene store is untouched. -/
def completeNavigation (s : ControlTrayState) : ControlTrayState :=
  { s with nav :=
      { s.nav with active := false, currentStep := 0, steps := [] } }

/-- Handler `startNavigation` (`ControlTray.tsx` lines 236-255): sets the goal
description on the scene memory of the client, activates the navigation state,
and sends one query with scene context included. -/
def startNavigation (s : ControlTrayState) (goalDescription : String) :
    ControlTrayState × SendOutcome :=
  let client :=
    { s.client with sceneMemory :=
        setNavigationGoal s.client.sceneMemory (Sum.inr goalDescription) }
  let nav :=
    { s.nav with active := true
                 scene := { s.nav.scene with
                              goalDescription := some goalDescription } }
  let query := "I need to navigate: " ++ goalDescription ++
    ". What objects do you see and what should I do first?"
  let sent := send client [Part.text query] true true
  ({ client := sent.1, nav := nav }, sent.2)

/-- One `updateUserPosition` call: its arguments plus the `Date.now()`
value observed during the call. -/
structure MoveCall where
  pos : Position
  action : Option String
  now : Nat
  deriving DecidableEq, Repr

/-- A sequence of `updateUserPosition` calls, applied in order. -/
def runMoves (m : SceneMemory) (calls : List MoveCall) : SceneMemory :=
  calls.foldl (fun s c => updateUserPosition s c.pos c.action c.now) m

/-- The snapshot `updateUserPosition` pushes when called on state `m`. -/
def snapshotOf (m : SceneMemory) (c : MoveCall) : SceneSnapshot :=
  { timestamp := c.now
    user := m.user
    objects := m.objects
    action := c.action }

/-- The snapshots appended by a sequence of `updateUserPosition` calls,
each taken from the state immediately before its call. -/
def snapshotsOf (m : SceneMemory) : List MoveCall → List SceneSnapshot
  | [] => []
  | c :: cs =>
      snapshotOf m c :: snapshotsOf (updateUserPosition m c.pos c.action c.now) cs

/-- One public mutation of the Scene Store. -/
inductive SceneOp where
  | setUserPosition (newPosition : Position) (action : Option String) (now : Nat)
  | upsertObject (object : SceneObject) (now : Nat)
  | setGoal (goal : Position ⊕ String)
  | reset
  deriving DecidableEq, Repr

/-- Dispatch of a public mutation to the corresponding client method. -/
def applyOp (m : SceneMemory) : SceneOp → SceneMemory
  | SceneOp.setUserPosition p a n => updateUserPosition m p a n
  | SceneOp.upsertObject o n => updateSceneObject m o n
  | SceneOp.setGoal g => setNavigationGoal m g
  | SceneOp.reset => resetScene m

/-- A sequence of public mutations, applied in order. -/
def runOps (m : SceneMemory) (ops : List SceneOp) : SceneMemory :=
  ops.foldl applyOp m

/-- The object names currently stored, in store order. -/
def objectNames (m : SceneMemory) : List String :=
  m.objects.map SceneObject.name

/-- Modelled from the words of the claim (not from the source): the output
layout the spec asserts for the serializer — header line first with
nothing before it, a `Detected Objects:` section directly after the user
position line, the literal line `no objects yet` when no objects are
stored, a goal line when a goal or goal description is set, then the
footer line.  Used only to compare the asserted layout with
`getSceneContext`. -/
def claimedSceneContext (m : SceneMemory) : String :=
  "--- SCENE MEMORY ---\n" ++
  "User Position: [" ++ toString m.user.1 ++ ", " ++ toString m.user.2 ++
    "]\n" ++
  (if m.objects.isEmpty then "no objects yet\n"
   else "Detected Objects:\n" ++
     String.join (m.objects.map fun obj =>
       "- " ++ obj.name ++ " at [" ++ toString obj.position.1 ++ ", " ++
         toString obj.position.2 ++ "] (relative: [" ++
         toString (obj.position.1 - m.user.1) ++ ", " ++
         toString (obj.position.2 - m.user.2) ++ "])" ++
         (match obj.description with
          | some d => " - " ++ d
          | none => "") ++ "\n")) ++
  (match m.goal, m.goalDescription with
   | none, none => ""
   | g, d =>
       "Navigation Goal: " ++
         (match d with | some t => t | none => "") ++
         (match g with
          | some p => " [" ++ toString p.1 ++ ", " ++ toString p.2 ++ "]"
          | none => "") ++ "\n") ++
  "--- END SCENE MEMORY ---\n"

/-- One object line of the serializer output, without its terminating
newline (identical content to `renderObject`). -/
def objectLine (user : Position) (obj : SceneObject) : String :=
  "- " ++ obj.name ++ " at [" ++ toString obj.position.1 ++ ", " ++
    toString obj.position.2 ++ "] (relative: [" ++
    toString (obj.position.1 - user.1) ++ ", " ++
    toString (obj.position.2 - user.2) ++ "])" ++
    (match obj.description with
     | some d => if d.isEmpty then "" else " - " ++ d
     | none => "")

/-- The serializer output described line by line (each entry is one line of
output, without its newline; `""` entries are the blank separator lines):
a leading blank line, the header, the user position line, either the
literal `No objects detected yet.` line or a blank line plus the
`Detected Objects:` section, an optional blank line plus goal line, and
the footer. -/
def sceneContextLines (m : SceneMemory) : List String :=
  [""] ++
  ["--- SCENE MEMORY ---"] ++
  ["User Position: [" ++ toString m.user.1 ++ ", " ++ toString m.user.2 ++
    "]"] ++
  (if m.objects.isEmpty then
    ["No objects detected yet."]
   else
    ["", "Detected Objects:"] ++ m.objects.map (objectLine m.user)) ++
  (if m.goal.isSome || strTruthy m.goalDescription then
    ["", "Navigation Goal: " ++
      (match m.goalDescription with
       | some d => if d.isEmpty then "" else d
       | none => "") ++
      (match m.goal with
       | some g => " [" ++ toString g.1 ++ ", " ++ toString g.2 ++ "]"
       | none => "")]
   else []) ++
  ["--- END SCENE MEMORY ---"]

/-- The amended serializer contract: the line-by-line layout above, each
line terminated by a newline. -/
def amendedSceneContext (m : SceneMemory) : String :=
  String.join ((sceneContextLines m).map (fun line => line ++ "\n"))

/-- A sample detected object, used to instantiate theorems concretely. -/
def sampleBox : SceneObject :=
  { name := "box"
    position := ((3 : Int), (0 : Int))
    description := some "cardboard box"
    timestamp := none }

/-- A second sample detected object with a distinct name. -/
def sampleCup : SceneObject :=
  { name := "cup"
    position := ((1 : Int), (1 : Int))
    description := none
    timestamp := none }

/-- A sample scene holding the two sample objects. -/
def sampleScene : SceneMemory :=
  { user := ((0 : Int), (2 : Int))
    objects := [sampleBox, sampleCup]
    goal := none
    goalDescription := some "other side"
    history := [] }

/-! Helper lemmas shared by the claim theorems. -/

theorem join_cons (a : String) (l : List String) :
    String.join (a :: l) = a ++ String.join l := by
  apply String.ext
  simp [String.join_eq]

theorem join_append (l₁ l₂ : List String) :
    String.join (l₁ ++ l₂) = String.join l₁ ++ String.join l₂ := by
  apply String.ext
  simp [String.join_eq]

theorem set_self_of_getElem? {α : Type} (l : List α) (i : Nat) (a : α)
    (h : l[i]? = some a) : l.set i a = l := by
  induction l generalizing i with
  | nil => simp at h
  | cons x xs ih =>
      cases i with
      | zero => simp at h; simp [List.set, h]
      | succ j => simp at h; simp [List.set, ih j h]

theorem runMoves_nil (m : SceneMemory) : runMoves m [] = m := rfl

theorem runMoves_cons (m : SceneMemory) (c : MoveCall) (cs : List MoveCall) :
    runMoves m (c :: cs) =
      runMoves (updateUserPosition m c.pos c.action c.now) cs := rfl

theorem history_runMoves (m : SceneMemory) (cs : List MoveCall) :
    (runMoves m cs).history = m.history ++ snapshotsOf m cs := by
  induction cs generalizing m with
  | nil => simp [runMoves, snapshotsOf]
  | cons c cs ih =>
      rw [runMoves_cons, ih]
      simp [updateUserPosition, snapshotsOf, snapshotOf]

theorem length_snapshotsOf (m : SceneMemory) (cs : List MoveCall) :
    (snapshotsOf m cs).length = cs.length := by
  induction cs generalizing m with
  | nil => rfl
  | cons c cs ih => simp [snapshotsOf, ih]

theorem snapshotsOf_getElem? (m : SceneMemory) (cs : List MoveCall)
    (k : Nat) (c : MoveCall) (h : cs[k]? = some c) :
    (snapshotsOf m cs)[k]? =
      some (snapshotOf (runMoves m (cs.take k)) c) := by
  induction cs generalizing m k with
  | nil => simp at h
  | cons c' cs ih =>
      cases k with
      | zero =>
          simp at h
          subst h
          simp [snapshotsOf, runMoves]
      | succ j =>
          simp at h
          simpa [snapshotsOf, List.take_succ_cons, runMoves_cons]
            using ih (updateUserPosition m c'.pos c'.action c'.now) j h

theorem user_updateUserPosition (m : SceneMemory) (p : Position)
    (a : Option String) (n : Nat) :
    (updateUserPosition m p a n).user = p := rfl

/-- C1: starting from any store whose history has length `H`, a sequence of
`N` `updateUserPosition` calls leaves a history of length `H + N`; the first
`H` entries are the previous history, unchanged; the entry appended by the
`k`-th call is exactly the snapshot of the user position, objects list and
given action as they were immediately before that call; and whenever a call
actually changes the user position, the new (post-call) position does not
occur as the `user` field of the snapshot that call appended. -/
theorem updateUserPosition_history_log (m : SceneMemory)
    (cs : List MoveCall) :
    (runMoves m cs).history.length = m.history.length + cs.length ∧
    (runMoves m cs).history.take m.history.length = m.history ∧
    ∀ k c, cs[k]? = some c →
      ((runMoves m cs).history[m.history.length + k]? =
          some { timestamp := c.now
                 user := (runMoves m (cs.take k)).user
                 objects := (runMoves m (cs.take k)).objects
                 action := c.action } ∧
        (c.pos ≠ (runMoves m (cs.take k)).user →
          ∀ snap, (runMoves m cs).history[m.history.length + k]? = some snap →
            snap.user ≠ c.pos)) := by
  refine ⟨?_, ?_, ?_⟩
  · rw [history_runMoves]
    simp [length_snapshotsOf]
  · rw [history_runMoves]
    simp
  · intro k c h
    have hidx : (runMoves m cs).history[m.history.length + k]? =
        some (snapshotOf (runMoves m (cs.take k)) c) := by
      rw [history_runMoves,
        List.getElem?_append_right (Nat.le_add_right _ _)]
      simpa [Nat.add_sub_cancel_left] using snapshotsOf_getElem? m cs k c h
    refine ⟨hidx, ?_⟩
    · intro hne snap hsnap
      rw [hidx] at hsnap
      have : snap = snapshotOf (runMoves m (cs.take k)) c :=
        Option.some.inj hsnap.symm
      rw [this]
      exact fun hcontra => hne (hcontra.symm)

/-- Concrete instantiation of C1: two calls from the initial store; the
snapshot appended by the second call records the state after the first call
only, and its `user` field differs from the new position. -/
theorem updateUserPosition_history_log_witness :
    ((runMoves initialSceneMemory
        [{ pos := ((1 : Int), (2 : Int)), action := some "step", now := 5 },
         { pos := ((3 : Int), (4 : Int)), action := none, now := 7 }]).history[initialSceneMemory.history.length + 1]? =
      some { timestamp := 7
             user := (runMoves initialSceneMemory
               ([{ pos := ((1 : Int), (2 : Int)), action := some "step", now := 5 },
                 { pos := ((3 : Int), (4 : Int)), action := none, now := 7 }].take 1)).user
             objects := (runMoves initialSceneMemory
               ([{ pos := ((1 : Int), (2 : Int)), action := some "step", now := 5 },
                 { pos := ((3 : Int), (4 : Int)), action := none, now := 7 }].take 1)).objects
             action := none }) ∧
    ({ timestamp := 7, user := ((1 : Int), (2 : Int)), objects := [],
       action := none } : SceneSnapshot).user ≠ ((3 : Int), (4 : Int)) :=
  ⟨((updateUserPosition_history_log initialSceneMemory
      [{ pos := ((1 : Int), (2 : Int)), action := some "step", now := 5 },
       { pos := ((3 : Int), (4 : Int)), action := none, now := 7 }]).2.2 1
      { pos := ((3 : Int), (4 : Int)), action := none, now := 7 } rfl).1,
   ((updateUserPosition_history_log initialSceneMemory
      [{ pos := ((1 : Int), (2 : Int)), action := some "step", now := 5 },
       { pos := ((3 : Int), (4 : Int)), action := none, now := 7 }]).2.2 1
      { pos := ((3 : Int), (4 : Int)), action := none, now := 7 } rfl).2
      (by decide)
      { timestamp := 7, user := ((1 : Int), (2 : Int)), objects := [],
        action := none } rfl⟩

/-- C4: `updateSceneObject` with a name already present overwrites exactly
the slot `findIndex` found, with every field taken from the argument and
the timestamp refreshed to the current time, leaving the number of objects
unchanged; with a name not present it appends the argument (timestamp
refreshed), growing the list by exactly one. -/
theorem updateSceneObject_upsert (m : SceneMemory) (object : SceneObject)
    (now : Nat) :
    (∀ i, m.objects.findIdx? (fun obj => obj.name == object.name) = some i →
      (updateSceneObject m object now).objects =
        m.objects.set i { object with timestamp := some now } ∧
      (updateSceneObject m object now).objects[i]? =
        some { object with timestamp := some now } ∧
      (updateSceneObject m object now).objects.length = m.objects.length) ∧
    ((m.objects.any fun obj => obj.name == object.name) = false →
      (updateSceneObject m object now).objects =
        m.objects ++ [{ object with timestamp := some now }] ∧
      (updateSceneObject m object now).objects.length =
        m.objects.length + 1) := by
  constructor
  · intro i hi
    obtain ⟨hlt, -, -⟩ := List.findIdx?_eq_some_iff_getElem.mp hi
    refine ⟨?_, ?_, ?_⟩
    · simp [updateSceneObject, hi]
    · simp [updateSceneObject, hi, List.getElem?_set_self hlt]
    · simp [updateSceneObject, hi]
  · intro hany
    have hnone : m.objects.findIdx? (fun obj => obj.name == object.name) =
        none := by
      have := @List.findIdx?_isSome _ m.objects
        (fun obj => obj.name == object.name)
      rw [hany] at this
      exact Option.not_isSome_iff_eq_none.mp (by simp [this])
    constructor
    · simp [updateSceneObject, hnone]
    · simp [updateSceneObject, hnone]

/-- Concrete instantiation of C4: replacing the sample box keeps two
objects and stores the argument with the refreshed timestamp; inserting a
new name appends it. -/
theorem updateSceneObject_upsert_witness :
    ((updateSceneObject sampleScene
        { name := "box", position := ((5 : Int), (5 : Int)),
          description := some "moved", timestamp := none } 9).objects[0]? =
      some { name := "box", position := ((5 : Int), (5 : Int)),
             description := some "moved", timestamp := some 9 } ∧
     (updateSceneObject sampleScene
        { name := "box", position := ((5 : Int), (5 : Int)),
          description := some "moved", timestamp := none } 9).objects.length =
       sampleScene.objects.length) ∧
    (updateSceneObject sampleScene
        { name := "door", position := ((7 : Int), (0 : Int)),
          description := none, timestamp := none } 9).objects =
      sampleScene.objects ++
        [{ name := "door", position := ((7 : Int), (0 : Int)),
           description := none, timestamp := some 9 }] :=
  ⟨⟨((updateSceneObject_upsert sampleScene
      { name := "box", position := ((5 : Int), (5 : Int)),
        description := some "moved", timestamp := none } 9).1 0 rfl).2.1,
    ((updateSceneObject_upsert sampleScene
      { name := "box", position := ((5 : Int), (5 : Int)),
        description := some "moved", timestamp := none } 9).1 0 rfl).2.2⟩,
   ((updateSceneObject_upsert sampleScene
      { name := "door", position := ((7 : Int), (0 : Int)),
        description := none, timestamp := none } 9).2 (by decide)).1⟩

/-- C10: replacing an existing object stores the replacement at the same
index `findIndex` returned, leaves every other slot untouched, and keeps
the listing order of names — hence the serializer, which lists objects in
store order, is unaffected by an update to an existing object. -/
theorem updateSceneObject_in_place (m : SceneMemory) (object : SceneObject)
    (now : Nat) (i : Nat)
    (h : m.objects.findIdx? (fun obj => obj.name == object.name) = some i) :
    (updateSceneObject m object now).objects =
      m.objects.set i { object with timestamp := some now } ∧
    (∀ j, j ≠ i →
      (updateSceneObject m object now).objects[j]? = m.objects[j]?) ∧
    objectNames (updateSceneObject m object now) = objectNames m := by
  have hmatch := List.findIdx?_of_eq_some h
  refine ⟨?_, ?_, ?_⟩
  · simp [updateSceneObject, h]
  · intro j hj
    simp [updateSceneObject, h, List.getElem?_set_ne (Ne.symm hj)]
  · cases hoi : m.objects[i]? with
    | none => simp [hoi] at hmatch
    | some a =>
        simp only [hoi] at hmatch
        have hname : a.name = object.name := eq_of_beq (by simpa using hmatch)
        have hset : (m.objects.map SceneObject.name).set i object.name =
            m.objects.map SceneObject.name := by
          apply set_self_of_getElem?
          rw [List.getElem?_map, hoi]
          simp [hname]
        simp only [objectNames, updateSceneObject, h, List.map_set]
        simpa using hset

/-- Concrete instantiation of C10: updating the sample box leaves the cup
in place and the name order `[box, cup]` unchanged. -/
theorem updateSceneObject_in_place_witness :
    (updateSceneObject sampleScene
        { name := "box", position := ((5 : Int), (5 : Int)),
          description := some "moved", timestamp := none } 9).objects[1]? =
      sampleScene.objects[1]? ∧
    objectNames (updateSceneObject sampleScene
        { name := "box", position := ((5 : Int), (5 : Int)),
          description := some "moved", timestamp := none } 9) =
      objectNames sampleScene :=
  ⟨(updateSceneObject_in_place sampleScene
      { name := "box", position := ((5 : Int), (5 : Int)),
        description := some "moved", timestamp := none } 9 0 rfl).2.1 1
      (by decide),
   (updateSceneObject_in_place sampleScene
      { name := "box", position := ((5 : Int), (5 : Int)),
        description := some "moved", timestamp := none } 9 0 rfl).2.2⟩

theorem nodup_objectNames_applyOp (m : SceneMemory) (op : SceneOp)
    (h : (objectNames m).Nodup) : (objectNames (applyOp m op)).Nodup := by
  cases op with
  | setUserPosition p a n => exact h
  | setGoal g => cases g <;> exact h
  | reset => simp [objectNames, applyOp, resetScene]
  | upsertObject o n =>
      cases hfind : m.objects.findIdx? (fun obj => obj.name == o.name) with
      | some i =>
          have hmatch := List.findIdx?_of_eq_some hfind
          cases hoi : m.objects[i]? with
          | none => simp [hoi] at hmatch
          | some a =>
              simp only [hoi] at hmatch
              have hname : a.name = o.name := eq_of_beq (by simpa using hmatch)
              have hset : (m.objects.map SceneObject.name).set i o.name =
                  m.objects.map SceneObject.name := by
                apply set_self_of_getElem?
                rw [List.getElem?_map, hoi]
                simp [hname]
              have : objectNames (applyOp m (SceneOp.upsertObject o n)) =
                  objectNames m := by
                simp only [objectNames, applyOp, updateSceneObject, hfind,
                  List.map_set]
                simpa using hset
              rw [this]; exact h
      | none =>
          have hall := List.findIdx?_eq_none_iff.mp hfind
          have : objectNames (applyOp m (SceneOp.upsertObject o n)) =
              objectNames m ++ [o.name] := by
            simp [objectNames, applyOp, updateSceneObject, hfind]
          rw [this]
          rw [List.nodup_append]
          refine ⟨h, List.nodup_singleton _, ?_⟩
          intro a ha ha'
          obtain ⟨x, hx, rfl⟩ := List.mem_map.mp ha

          have : x.name ≠ o.name := ne_of_beq_false (by simpa using hall x hx)
          simp at ha'
          exact this ha'

/-- C5: every store state reachable from the initial state through the
public mutations (`updateUserPosition`, `updateSceneObject`,
`setNavigationGoal`, `resetScene`) has pairwise-distinct object names; in
particular the predicate holds in the initial state (the empty operation
sequence) and is preserved by appending any operation. -/
theorem objectNames_nodup_reachable (ops : List SceneOp) :
    (objectNames (runOps initialSceneMemory ops)).Nodup := by
  have gen : ∀ (ops' : List SceneOp) (m : SceneMemory),
      (objectNames m).Nodup → (objectNames (runOps m ops')).Nodup := by
    intro ops'
    induction ops' with
    | nil => intro m hm; exact hm
    | cons op rest ih =>
        intro m hm
        exact ih _ (nodup_objectNames_applyOp m op hm)
  exact gen ops initialSceneMemory (by simp [objectNames, initialSceneMemory])

/-- C6: `resetScene` yields the initial scene memory — user at the origin,
no objects, no history, no goal and no goal description — whatever the
prior state was. -/
theorem resetScene_yields_initial (m : SceneMemory) :
    resetScene m = initialSceneMemory ∧
    (resetScene m).user = ((0 : Int), (0 : Int)) ∧
    (resetScene m).objects = [] ∧
    (resetScene m).history = [] ∧
    (resetScene m).goal = none ∧
    (resetScene m).goalDescription = none :=
  ⟨rfl, rfl, rfl, rfl, rfl, rfl⟩

theorem send_fst (c : ClientState) (parts : List Part) (tc inc : Bool) :
    (send c parts tc inc).1 = c := by
  unfold send
  split <;> rfl

/-- C7: `completeNavigation` never touches the client, so the scene store
(user position, objects, history) is unchanged; only the transient
navigation state (`active`, `currentStep`, `steps`) is cleared; and a
subsequent `startNavigation` still finds every previously recorded object,
position and history entry in the store. -/
theorem completeNavigation_preserves_store (s : ControlTrayState)
    (g : String) :
    (completeNavigation s).client = s.client ∧
    (completeNavigation s).client.sceneMemory.user =
      s.client.sceneMemory.user ∧
    (completeNavigation s).client.sceneMemory.objects =
      s.client.sceneMemory.objects ∧
    (completeNavigation s).client.sceneMemory.history =
      s.client.sceneMemory.history ∧
    (completeNavigation s).nav.active = false ∧
    (completeNavigation s).nav.currentStep = 0 ∧
    (completeNavigation s).nav.steps = [] ∧
    (completeNavigation s).nav.scene = s.nav.scene ∧
    (startNavigation (completeNavigation s) g).1.client.sceneMemory.objects =
      s.client.sceneMemory.objects ∧
    (startNavigation (completeNavigation s) g).1.client.sceneMemory.user =
      s.client.sceneMemory.user ∧
    (startNavigation (completeNavigation s) g).1.client.sceneMemory.history =
      s.client.sceneMemory.history := by
  refine ⟨rfl, rfl, rfl, rfl, rfl, rfl, rfl, rfl, ?_, ?_, ?_⟩ <;>
    simp [startNavigation, completeNavigation, send_fst, setNavigationGoal]

/-- C9: a `send` while no session exists is a report-and-no-op — it
returns (rather than throwing), transmits nothing, reports the failure,
and leaves the whole client state (scene memory included) unchanged. -/
theorem send_no_session (c : ClientState) (parts : List Part)
    (tc inc : Bool) (h : c.hasSession = false) :
    send c parts tc inc = (c, SendOutcome.errorNoSession) := by
  simp [send, h]

/-- Concrete instantiation of C9: a sessionless client sending a text part
gets the error outcome and keeps its state. -/
theorem send_no_session_witness :
    send { hasSession := false, sceneMemory := sampleScene }
        [Part.text "hello"] true true =
      ({ hasSession := false, sceneMemory := sampleScene },
        SendOutcome.errorNoSession) :=
  send_no_session { hasSession := false, sceneMemory := sampleScene }
    [Part.text "hello"] true true rfl

theorem hasTextField_prependSceneContext (ctx : String) (p : Part) :
    hasTextField (prependSceneContext ctx p) = hasTextField p := by
  cases p with
  | text s =>
      simp only [prependSceneContext]
      split <;> rfl
  | inlineData d => rfl

theorem any_hasTextField_map (ctx : String) (parts : List Part) :
    (parts.map (prependSceneContext ctx)).any hasTextField =
      parts.any hasTextField := by
  induction parts with
  | nil => rfl
  | cons p ps ih => simp [List.any_cons, hasTextField_prependSceneContext, ih]

theorem map_prependSceneContext_of_no_text (ctx : String)
    (parts : List Part) (h : parts.any hasTextField = false) :
    parts.map (prependSceneContext ctx) = parts := by
  induction parts with
  | nil => rfl
  | cons p ps ih =>
      rw [List.any_cons, Bool.or_eq_false_iff] at h
      cases p with
      | text s => simp [hasTextField] at h
      | inlineData d => simp [prependSceneContext, ih h.2]

/-- C8 counterexample: a part whose `text` is the empty string is a text
part, yet `send` with `includeSceneContext = true` transmits it unchanged —
the transmitted text is `""`, not the scene context followed by `""` (the
scene context is dropped entirely for this input). -/
theorem send_scene_context_counterexample :
    hasTextField (Part.text "") = true ∧
    send { hasSession := true, sceneMemory := initialSceneMemory }
        [Part.text ""] true true =
      ({ hasSession := true, sceneMemory := initialSceneMemory },
        SendOutcome.sent [Part.text ""] true) ∧
    getSceneContext initialSceneMemory ++ "" ≠ "" := by
  refine ⟨rfl, rfl, ?_⟩
  decide

/-- C8 amended: with `includeSceneContext = true`, every text part with
non-empty text is transmitted as the scene context followed by the original
text (the user-authored text preserved in full as a suffix); a text part
whose text is empty is transmitted unchanged; and when no part carries a
`text` key at all, the scene context is added as an extra leading text
part. -/
theorem send_scene_context_amended (m : SceneMemory) (parts : List Part) :
    (parts.any hasTextField = true →
      (∀ (i : Nat) (s : String),
        parts[i]? = some (Part.text s) → s.isEmpty = false →
        (buildPartsToSend m parts true)[i]? =
          some (Part.text (getSceneContext m ++ s))) ∧
      (∀ (i : Nat) (s : String),
        parts[i]? = some (Part.text s) → s.isEmpty = true →
        (buildPartsToSend m parts true)[i]? = some (Part.text s))) ∧
    (parts.any hasTextField = false →
      buildPartsToSend m parts true =
        Part.text (getSceneContext m) :: parts) := by
  constructor
  · intro hany
    have hmapped : buildPartsToSend m parts true =
        parts.map (prependSceneContext (getSceneContext m)) := by
      simp only [buildPartsToSend, any_hasTextField_map, hany,
        eq_self_iff_true, if_true]
    constructor
    · intro i s hi hs
      rw [hmapped, List.getElem?_map, hi]
      simp [prependSceneContext, hs]
    · intro i s hi hs
      rw [hmapped, List.getElem?_map, hi]
      simp [prependSceneContext, hs]
  · intro hany
    simp only [buildPartsToSend, any_hasTextField_map, hany,
      Bool.false_eq_true, if_false, eq_self_iff_true, if_true,
      map_prependSceneContext_of_no_text _ _ hany]

/-- Concrete instantiation of the amended C8: a non-empty text part gets
the context prepended with the original text as suffix; a parts list with
no text part gets the context as an extra leading part. -/
theorem send_scene_context_amended_witness :
    (buildPartsToSend initialSceneMemory [Part.text "hi"] true)[0]? =
      some (Part.text (getSceneContext initialSceneMemory ++ "hi")) ∧
    buildPartsToSend initialSceneMemory [Part.inlineData "img"] true =
      Part.text (getSceneContext initialSceneMemory) ::
        [Part.inlineData "img"] :=
  ⟨((send_scene_context_amended initialSceneMemory [Part.text "hi"]).1
      rfl).1 0 "hi" rfl rfl,
   (send_scene_context_amended initialSceneMemory
      [Part.inlineData "img"]).2 rfl⟩

theorem join_nil : String.join ([] : List String) = "" := rfl

theorem renderObject_eq_objectLine (u : Position) (o : SceneObject) :
    renderObject u o = objectLine u o ++ "\n" := rfl

theorem join_objectLines (u : Position) (objs : List SceneObject) :
    String.join ((objs.map (objectLine u)).map (fun line => line ++ "\n")) =
      String.join (objs.map (renderObject u)) := by
  induction objs with
  | nil => rfl
  | cons o os ih =>
      simp only [List.map_cons, join_cons, ih, renderObject_eq_objectLine]

/-- C2 counterexample: on the empty initial scene the serializer emits a
blank line before the header and the placeholder line
`No objects detected yet.`, so its output differs from the layout the claim
states (header line first with nothing before it, literal `no objects yet`
line). -/
theorem getSceneContext_layout_counterexample :
    getSceneContext initialSceneMemory ≠
      claimedSceneContext initialSceneMemory := by
  decide

/-- C2 amended: `getSceneContext` returns exactly the following lines, each
terminated by a newline — a leading blank line; the header
`--- SCENE MEMORY ---`; `User Position: [x, y]`; then, if objects are
stored, a blank line, `Detected Objects:`, and one line per object
`- name at [ox, oy] (relative: [rx, ry])` with a ` - description` suffix
only when the description is present and non-empty, and otherwise the
literal line `No objects detected yet.`; then, if a goal position is set or
a non-empty goal description is set, a blank line and
`Navigation Goal: <description>< [gx, gy]>` (description only when
non-empty, bracketed position only when the goal position is set); and the
footer `--- END SCENE MEMORY ---` — with nothing outside these lines. -/
theorem getSceneContext_amended (m : SceneMemory) :
    getSceneContext m = amendedSceneContext m := by
  obtain ⟨u, objs, goal, gdesc, hist⟩ := m
  cases hg : goal.isSome || strTruthy gdesc with
  | true =>
      cases objs with
      | nil =>
          simp only [getSceneContext, amendedSceneContext,
            sceneContextLines, hg, List.length_nil, List.isEmpty_nil,
            lt_self_iff_false, if_false, eq_self_iff_true, if_true,
            List.map_cons, List.map_append, List.map_nil, join_cons,
            join_append, join_nil, join_objectLines,
            renderObject_eq_objectLine, String.append_empty,
            String.empty_append, String.append_assoc]
          rfl
      | cons o os =>
          simp only [getSceneContext, amendedSceneContext,
            sceneContextLines, hg, List.length_cons, List.isEmpty_cons,
            Nat.zero_lt_succ, gt_iff_lt, if_true, if_false,
            eq_self_iff_true, Bool.false_eq_true,
            List.map_cons, List.map_append, List.map_nil, join_cons,
            join_append, join_nil, join_objectLines,
            renderObject_eq_objectLine, String.append_empty,
            String.empty_append, String.append_assoc]
          rfl
  | false =>
      cases objs with
      | nil =>
          simp only [getSceneContext, amendedSceneContext,
            sceneContextLines, hg, List.length_nil, List.isEmpty_nil,
            lt_self_iff_false, if_false, eq_self_iff_true, if_true,
            Bool.false_eq_true,
            List.map_cons, List.map_append, List.map_nil, join_cons,
            join_append, join_nil, join_objectLines,
            renderObject_eq_objectLine, String.append_empty,
            String.empty_append, String.append_assoc]
          rfl
      | cons o os =>
          simp only [getSceneContext, amendedSceneContext,
            sceneContextLines, hg, List.length_cons, List.isEmpty_cons,
            Nat.zero_lt_succ, gt_iff_lt, if_true, if_false,
            eq_self_iff_true, Bool.false_eq_true,
            List.map_cons, List.map_append, List.map_nil, join_cons,
            join_append, join_nil, join_objectLines,
            renderObject_eq_objectLine, String.append_empty,
            String.empty_append, String.append_assoc]
          rfl

theorem join_map_split {α : Type} (f : α → String) (l : List α) (a : α)
    (h : a ∈ l) :
    ∃ s₁ s₂, String.join (l.map f) = s₁ ++ (f a ++ s₂) := by
  induction l with
  | nil => simp at h
  | cons x xs ih =>
      rcases List.mem_cons.mp h with rfl | hx
      · refine ⟨"", String.join (xs.map f), ?_⟩
        simp [List.map_cons, join_cons]
      · obtain ⟨s₁, s₂, hs⟩ := ih hx
        refine ⟨f x ++ s₁, s₂, ?_⟩
        simp [List.map_cons, join_cons, hs, String.append_assoc]

/-- C3: for every object in the store, the serializer output contains the
rendered line for that object, and the relative offset it reports is
exactly the component-wise difference between the object position and the
user position at serialization time — no rounding is involved. -/
theorem relative_offset_exact (m : SceneMemory) (o : SceneObject)
    (h : o ∈ m.objects) :
    ∃ s₁ s₂, getSceneContext m =
      s₁ ++ ("(relative: [" ++ (toString (o.position.1 - m.user.1) ++
        (", " ++ (toString (o.position.2 - m.user.2) ++ ("])" ++ s₂))))) := by
  have hlen : 0 < m.objects.length :=
    List.length_pos.mpr (List.ne_nil_of_mem h)
  obtain ⟨j₁, j₂, hj⟩ := join_map_split (renderObject m.user) m.objects o h
  refine ⟨"\n--- SCENE MEMORY ---\n" ++ "User Position: [" ++
      toString m.user.1 ++ ", " ++ toString m.user.2 ++ "]\n" ++
      "\nDetected Objects:\n" ++ j₁ ++
      ("- " ++ o.name ++ " at [" ++ toString o.position.1 ++ ", " ++
        toString o.position.2 ++ "] "),
    ((match o.description with
      | some d => if d.isEmpty then "" else " - " ++ d
      | none => "") ++ "\n") ++ j₂ ++
      (if m.goal.isSome || strTruthy m.goalDescription then
        "\nNavigation Goal: " ++
          (match m.goalDescription with
           | some d => if d.isEmpty then "" else d
           | none => "") ++
          (match m.goal with
           | some g => " [" ++ toString g.1 ++ ", " ++ toString g.2 ++ "]"
           | none => "") ++ "\n"
      else "") ++ "--- END SCENE MEMORY ---\n", ?_⟩
  simp only [getSceneContext, if_pos hlen, hj, renderObject,
    String.append_assoc]
  rfl

/-- Concrete instantiation of C3: in the sample scene (user at `[0, 2]`)
the line for the box at `[3, 0]` reports the exact offsets `3 - 0` and
`0 - 2`. -/
theorem relative_offset_exact_witness :
    ∃ s₁ s₂, getSceneContext sampleScene =
      s₁ ++ ("(relative: [" ++ (toString ((3 : Int) - (0 : Int)) ++
        (", " ++ (toString ((0 : Int) - (2 : Int)) ++ ("])" ++ s₂))))) :=
  relative_offset_exact sampleScene sampleBox
    (by simp [sampleScene, sampleBox])

end Lumex
